import Mathlib

/-
Verification of the splinepy microstructure orchestration layer.

Shallow embedding of:
  - src/splinepy/microstructure/_microstructure/microstructure_multi_patch.py
    (class _MicrostructureMultiPatch: property setters, create, show)
  - src/splinepy/microstructure/microstructure.py (class Microstructure, the facade)
  - src/splinepy/microstructure/tiles/solid_3d.py (class Solid3D)

Python values are modelled by the inductive type PyVal below; a Python
attribute that may be absent is modelled as an Option PyVal on the state
record (Option.none = attribute missing, Option.some v = attribute present
with value v, where v may itself be the Python value None = PyVal.none).
Python exceptions are modelled with Except PyError.

The single-patch builder _MicrostructureSinglePatch is imported by the
multi-patch module but its source is not part of this repository snapshot;
where the multi-patch code calls it, its per-patch results are taken as an
explicit parameter (single_patch_create) of the embedding.
-/

/-- Model of a Python runtime value, covering the value shapes the
microstructure code distinguishes: None, bools, ints, strings, lists,
Multipatch objects (with their ordered .patches), PySpline objects,
callables and other opaque objects. -/
inductive PyVal where
  | none
  | bool (b : Bool)
  | int (n : Int)
  | str (s : String)
  | list (xs : List PyVal)
  | multipatch (patches : List PyVal)
  | spline (id : Nat)
  | pyfun (id : Nat)
  | obj (id : Nat)

/-- Python `value is None`. -/
def pyIsNone : PyVal → Bool
  | PyVal.none => true
  | _ => false

/-- Python `isinstance(value, list)`. -/
def pyIsList : PyVal → Bool
  | PyVal.list _ => true
  | _ => false

/-- Python `len(value)` for a list (only ever called after an isinstance check). -/
def pyListLen : PyVal → Nat
  | PyVal.list xs => xs.length
  | _ => 0

/-- The items of a Python list value. -/
def pyListItems : PyVal → List PyVal
  | PyVal.list xs => xs
  | _ => []

/-- Python truthiness: None and empty collections are falsy, everything else
the code ever tests is truthy. -/
def pyTruthy : PyVal → Bool
  | PyVal.none => false
  | PyVal.bool b => b
  | PyVal.int n => n != 0
  | PyVal.str s => s.length != 0
  | PyVal.list xs => xs.length != 0
  | PyVal.multipatch _ => true
  | PyVal.spline _ => true
  | PyVal.pyfun _ => true
  | PyVal.obj _ => true

/-- Python `isinstance(value, PySpline)`, used by the facade to pick the
single-patch or the multi-patch builder. -/
def pyIsPySpline : PyVal → Bool
  | PyVal.spline _ => true
  | _ => false

/-- Python exceptions raised by the embedded code. -/
inductive PyError where
  | attributeError (name : String)
  | valueError (msg : String)
  | nameError (name : String)
deriving DecidableEq

/-- A log record: `_logi` emits info, `_logd` emits debug. -/
inductive LogMsg where
  | info (msg : String)
  | debug (msg : String)
deriving DecidableEq

/-- Attribute state of a `_MicrostructureMultiPatch` instance.  Each Python
instance attribute is an Option: Option.none means the attribute was never
set (so reading it raises AttributeError), Option.some v means it holds v. -/
structure MSState where
  deformation_functions_attr : Option PyVal
  tilings_attr : Option PyVal
  microtiles_attr : Option PyVal
  parametrization_functions_attr : Option PyVal
  parameter_sensitivity_functions_attr : Option PyVal
  microstructures_attr : Option (List (PyVal × PyVal × PyVal × PyVal))
  microstructure_created_attr : Option PyVal

/-- A freshly constructed instance: no attributes set. -/
def MSState.empty : MSState :=
  ⟨Option.none, Option.none, Option.none, Option.none, Option.none,
   Option.none, Option.none⟩

/-- The `setattr(self, "_" + property_name, value)` step of `_set_property`
(microstructure_multi_patch.py line 391), by property number 0..4. -/
def set_attr (st : MSState) (number : Nat) (v : PyVal) : MSState :=
  match number with
  | 0 => { st with deformation_functions_attr := Option.some v }
  | 1 => { st with tilings_attr := Option.some v }
  | 2 => { st with microtiles_attr := Option.some v }
  | 3 => { st with parametrization_functions_attr := Option.some v }
  | _ => { st with parameter_sensitivity_functions_attr := Option.some v }

/-- Read of the attribute for property number 0..4 (names as produced by
`_get_property_name`). -/
def msstate_attr (st : MSState) : Nat → Option PyVal
  | 0 => st.deformation_functions_attr
  | 1 => st.tilings_attr
  | 2 => st.microtiles_attr
  | 3 => st.parametrization_functions_attr
  | _ => st.parameter_sensitivity_functions_attr

/-- The `Classes` argument handed to `_set_property` by each setter:
Multipatch for number 0, (int, list) for number 1, None for number 2
(never inspected thanks to short-circuiting), list for numbers 3 and 4. -/
inductive ClassSpec where
  | multipatchClass
  | intOrListClass
  | listClass
  | noneArg
deriving DecidableEq

/-- Python `isinstance(value, Classes)`.  Note that bool is a subclass of
int in Python, so a bool passes the (int, list) check. -/
def pyIsinstance : PyVal → ClassSpec → Bool
  | PyVal.multipatch _, ClassSpec.multipatchClass => true
  | PyVal.int _, ClassSpec.intOrListClass => true
  | PyVal.bool _, ClassSpec.intOrListClass => true
  | PyVal.list _, ClassSpec.intOrListClass => true
  | PyVal.list _, ClassSpec.listClass => true
  | _, _ => false

/-- Python repr of the Classes argument, as interpolated into the error
message by the f-string in `_set_property` (the quote characters of the
Python repr are elided here; no claim depends on the message text). -/
def classes_repr : ClassSpec → String
  | ClassSpec.multipatchClass => "<class splinepy.multipatch.Multipatch>"
  | ClassSpec.intOrListClass => "(<class int>, <class list>)"
  | ClassSpec.listClass => "<class list>"
  | ClassSpec.noneArg => "None"

/-- The tuple ("deformation_function", "tiling", "microtile",
"parametrization_function", "parameter_sensitivity_function") indexed in
`_set_property` (line 382). -/
def property_base_name : Nat → String
  | 0 => "deformation_function"
  | 1 => "tiling"
  | 2 => "microtile"
  | 3 => "parametrization_function"
  | _ => "parameter_sensitivity_function"

/-- In `_set_property` (line 386) the expression `callable(property)` names
the Python BUILTIN `property` (no local variable of that name is in scope
there), and builtins.property is a class, hence callable: the expression is
the constant True. -/
def callable_builtin_property : Bool := true

/-- Embedding of `_MicrostructureMultiPatch._set_property`
(microstructure_multi_patch.py lines 381-391). -/
def set_property_ms (st : MSState) (value : PyVal) (classes : ClassSpec)
    (number : Nat) : Except PyError MSState :=
  if !(pyIsNone value || (decide (number = 2) || pyIsinstance value classes) ||
       (decide (number > 2) && callable_builtin_property))
  then Except.error (PyError.valueError
        ("Argument " ++ (property_base_name number ++ "s") ++ " must be None" ++
         (if decide (number > 2) then "," else " or") ++ " an instance of " ++
         classes_repr classes ++
         (if decide (number > 2) then ", or callable" else "") ++ "!"))
  else Except.ok (set_attr st number value)

/-- Setter `deformation_functions` (line 71). -/
def deformation_functions_set (st : MSState) (v : PyVal) : Except PyError MSState :=
  set_property_ms st v ClassSpec.multipatchClass 0

/-- Setter `tilings` (line 100). -/
def tilings_set (st : MSState) (v : PyVal) : Except PyError MSState :=
  set_property_ms st v ClassSpec.intOrListClass 1

/-- Setter `microtiles` (line 134). -/
def microtiles_set (st : MSState) (v : PyVal) : Except PyError MSState :=
  set_property_ms st v ClassSpec.noneArg 2

/-- Setter `parametrization_functions` (line 184). -/
def parametrization_functions_set (st : MSState) (v : PyVal) : Except PyError MSState :=
  set_property_ms st v ClassSpec.listClass 3

/-- Setter `parameter_sensitivity_functions` (line 242). -/
def parameter_sensitivity_functions_set (st : MSState) (v : PyVal) : Except PyError MSState :=
  set_property_ms st v ClassSpec.listClass 4

/-- Embedding of `_MicrostructureMultiPatch.__init__` (lines 14-41): each
argument is assigned through its property setter only when it is not None. -/
def ms_init (deformation_functions tilings microtiles parametrization_functions : PyVal) :
    Except PyError MSState :=
  Except.bind (if pyIsNone deformation_functions then Except.ok MSState.empty
               else deformation_functions_set MSState.empty deformation_functions)
    (fun st1 =>
  Except.bind (if pyIsNone tilings then Except.ok st1 else tilings_set st1 tilings)
    (fun st2 =>
  Except.bind (if pyIsNone microtiles then Except.ok st2
               else microtiles_set st2 microtiles)
    (fun st3 =>
  Except.bind (if pyIsNone parametrization_functions then Except.ok st3
               else parametrization_functions_set st3 parametrization_functions)
    (fun st4 => Except.ok st4))))

/-- Embedding of the local `CheckForListAndCreateOtherwise` closure inside
`create` (lines 285-288): a list whose length equals the patch count is kept,
anything else is replicated once per patch. -/
def CheckForListAndCreateOtherwise (number_of_patches : Nat) (property : PyVal) : PyVal :=
  if pyIsList property && (pyListLen property == number_of_patches)
  then property
  else PyVal.list (List.replicate number_of_patches property)

/-- The debug message emitted by `CheckForAmbiguity` (lines 292-298); the
spelling, including the source typo "shoud", follows the code. -/
def ambiguity_message (name : String) : String :=
  "Possible ambiguity detected: " ++ name ++ "s is a list, whose length " ++
  "equals the number of patches. Each item will be interpreted as a " ++
  name ++ " for a patch. If this is not intended and the list shoud " ++
  "instead be repeated for each patch, please do this explicitly before " ++
  "setting the " ++ name ++ "s!"

/-- Embedding of the local `CheckForAmbiguity` closure inside `create`
(lines 289-299): the first component is the list of debug records emitted,
the second the broadcast value. -/
def CheckForAmbiguity (number_of_patches : Nat) (property : PyVal) (name : String) :
    List LogMsg × PyVal :=
  ((if pyIsList property && (pyListLen property == number_of_patches)
    then [LogMsg.debug (ambiguity_message name)] else []),
   CheckForListAndCreateOtherwise number_of_patches property)

/-- Result of one single-patch `create`: a Multipatch carrying its ordered
geometry `.patches` and its `.fields`, each field being itself a Multipatch
whose `.patches` are the per-tile field entries. -/
structure SPResult where
  patches : List PyVal
  fields : List (List PyVal)

instance : Inhabited SPResult := ⟨⟨[], []⟩⟩

/-- Embedding of line 330-331 of `create`: the combined geometry collection
`[patch for _multi_patch in multi_patches for patch in _multi_patch.patches]`. -/
def combine_patches (multi_patches : List SPResult) : List PyVal :=
  (multi_patches.map SPResult.patches).flatten

/-- The per-source blocks of one combined sensitivity field (inner
comprehension of line 337): block j is the contributing field itself when
`__multi_patch is _multi_patch` (object identity, rendered here as positional
identity j = i since the N single-patch results are distinct objects), and
`[None] * len(__multi_patch.patches)` otherwise. -/
def field_blocks (multi_patches : List SPResult) (i : Nat) (field : List PyVal) :
    List (List PyVal) :=
  multi_patches.enum.map (fun q =>
    if q.fst = i then field else List.replicate q.snd.patches.length PyVal.none)

/-- One combined sensitivity field row of line 337: the concatenation of the
blocks over all patches. -/
def field_row (multi_patches : List SPResult) (i : Nat) (field : List PyVal) :
    List PyVal :=
  (field_blocks multi_patches i field).flatten

/-- Embedding of the full argument of `multi_patch.add_fields` (line 337):
one combined row per (contributing patch, field of that patch), in patch
order. -/
def combine_fields (multi_patches : List SPResult) : List (List PyVal) :=
  (multi_patches.enum.map (fun q =>
    q.snd.fields.map (field_row multi_patches q.fst))).flatten

/-- The start index of patch k inside the combined geometry collection. -/
def patch_offset (multi_patches : List SPResult) (k : Nat) : Nat :=
  ((multi_patches.take k).map (fun mp => mp.patches.length)).sum

/-- The `.patches` attribute of a deformation-function value, as read by
`len(deformation_functions.patches)` (line 282). -/
def pyPatchesOf : PyVal → Except PyError (List PyVal)
  | PyVal.multipatch ps => Except.ok ps
  | _ => Except.error (PyError.attributeError "patches")

/-- The informational message of lines 276-277. -/
def insufficient_message : String :=
  "Current information not sufficient, awaiting further assignments!"

/-- Python zip over four lists, truncating at the shortest. -/
def zip4 {α β γ δ : Type} : List α → List β → List γ → List δ → List (α × β × γ × δ)
  | a :: as, b :: bs, c :: cs, d :: ds => (a, b, c, d) :: zip4 as bs cs ds
  | _, _, _, _ => []

/-- The result Multipatch of a multi-patch `create`: combined geometry and
the combined sensitivity fields passed to `add_fields`. -/
structure MPResult where
  patches : List PyVal
  fields : List (List PyVal)

/-- Outcome of a non-raising multi-patch `create` call: the updated instance
state, the log records emitted, and the returned value (Option.none for a
Python `return None`). -/
structure CreateOut where
  state : MSState
  logs : List LogMsg
  result : Option MPResult

/-- Embedding of the body of `_MicrostructureMultiPatch.create` after the
sanity checks (lines 280-339): the broadcast phase, the per-patch builds and
the combination step.

The per-patch single-patch builds (construction on lines 305-309 and the
`create` calls on lines 324-329) belong to `_MicrostructureSinglePatch`,
whose source is outside this repository snapshot; the result of the i-th
single-patch `create` is supplied by the parameter `single_patch_create`,
applied to the patch index and that patch's broadcast closing-face,
knot-span-wise and macro-sensitivity slices. -/
def ms_create_main (st : MSState) (patches : List PyVal)
    (tilings microtiles parametrization_functions parameter_sensitivity_functions : PyVal)
    (closing_faces knot_span_wise m_sensitivities : PyVal)
    (single_patch_create : Nat → PyVal → PyVal → PyVal → SPResult) : CreateOut :=
  let number_of_patches := patches.length
  let tilings_b := CheckForAmbiguity number_of_patches tilings "tiling"
  let microtiles_b := CheckForAmbiguity number_of_patches microtiles "microtile"
  let pf_b := CheckForListAndCreateOtherwise number_of_patches parametrization_functions
  let microstructures := zip4 patches (pyListItems tilings_b.snd)
      (pyListItems microtiles_b.snd) (pyListItems pf_b)
  let st1 := { st with microstructures_attr := Option.some microstructures }
  let psf_b := CheckForAmbiguity number_of_patches parameter_sensitivity_functions
      "parameter_sensitivity_function"
  -- Lines 316-319 assign each broadcast sensitivity-function slice onto the
  -- corresponding single-patch builder object (mutation of the external
  -- builder objects; it does not touch this instance's state).
  let closing_faces_b := CheckForListAndCreateOtherwise number_of_patches closing_faces
  let knot_span_wise_b := CheckForListAndCreateOtherwise number_of_patches knot_span_wise
  let m_sensitivities_b := CheckForListAndCreateOtherwise number_of_patches m_sensitivities
  let multi_patches := (List.range microstructures.length).map (fun i =>
      single_patch_create i ((pyListItems closing_faces_b).getD i PyVal.none)
        ((pyListItems knot_span_wise_b).getD i PyVal.none)
        ((pyListItems m_sensitivities_b).getD i PyVal.none))
  let logs := tilings_b.fst ++ microtiles_b.fst ++ psf_b.fst
  -- Line 334: at this point `macro_sensitivities` is the broadcast Python
  -- list of length N, so its truthiness is just nonemptiness.
  let fields := if pyTruthy m_sensitivities_b ||
        !((pyListItems psf_b.snd).all pyIsNone)
      then combine_fields multi_patches else []
  ⟨st1, logs, Option.some ⟨combine_patches multi_patches, fields⟩⟩


/-- Embedding of `_MicrostructureMultiPatch.create` (lines 244-339), sanity
phase.  The reads on lines 272-273 and 280-284 are DIRECT attribute accesses
(`self._deformation_functions`, not the getters with their getattr default),
so a missing attribute raises AttributeError; once all five attributes are
read and the three required ones are non-None, the remainder of the body is
`ms_create_main` above. -/
def ms_create (st : MSState)
    (closing_faces knot_span_wise m_sensitivities : PyVal)
    (single_patch_create : Nat → PyVal → PyVal → PyVal → SPResult) :
    Except PyError CreateOut :=
  match st.deformation_functions_attr with
  | Option.none => Except.error (PyError.attributeError "_deformation_functions")
  | Option.some deformation_functions =>
  match st.tilings_attr with
  | Option.none => Except.error (PyError.attributeError "_tilings")
  | Option.some tilings =>
  match st.microtiles_attr with
  | Option.none => Except.error (PyError.attributeError "_microtiles")
  | Option.some microtiles =>
  if pyIsNone deformation_functions || pyIsNone tilings || pyIsNone microtiles then
    Except.ok ⟨st, [LogMsg.info insufficient_message], Option.none⟩
  else
  match pyPatchesOf deformation_functions with
  | Except.error e => Except.error e
  | Except.ok patches =>
  match st.parametrization_functions_attr with
  | Option.none => Except.error (PyError.attributeError "_parametrization_functions")
  | Option.some parametrization_functions =>
  match st.parameter_sensitivity_functions_attr with
  | Option.none =>
      Except.error (PyError.attributeError "_parameter_sensitivity_functions")
  | Option.some parameter_sensitivity_functions =>
  Except.ok (ms_create_main st patches tilings microtiles parametrization_functions
    parameter_sensitivity_functions closing_faces knot_span_wise m_sensitivities
    single_patch_create)

/-- Embedding of the `use_saved=True` branch of
`_MicrostructureMultiPatch.show` (lines 356-360). -/
def show_use_saved (st : MSState) : Except PyError PyVal :=
  match st.microstructure_created_attr with
  | Option.some m => Except.ok m
  | Option.none =>
      Except.error (PyError.valueError "No previously created microstructure saved!")

/-- State of the `Microstructure` facade: the dispatch flag `_is_single_patch`
and the delegate builder instance (both builder kinds carry the same five
optional configuration attributes, with an "s"-suffixed name exactly when the
delegate is the multi-patch builder, which `_get_property_name` matches). -/
structure FacadeState where
  is_single_patch : Bool
  delegate : MSState

/-- Embedding of `Microstructure._get_property` with message=None
(microstructure.py lines 300-306): the delegate attribute when present,
None otherwise. -/
def facade_get_property (f : FacadeState) (number : Nat) : PyVal :=
  match msstate_attr f.delegate number with
  | Option.some v => v
  | Option.none => PyVal.none

/-- Modelled from the spec: the `_MicrostructureSinglePatch` constructor is
imported by microstructure.py but its source is not in this repository
snapshot.  Per spec sections 4.2, 4.4 and 7 it accepts the same four optional
configuration arguments as the multi-patch builder, storing each supplied
value and raising a configuration error on a type mismatch; it is modelled
here with the same attribute-record semantics as the multi-patch constructor. -/
def single_patch_init (deformation_function tiling microtile parametrization_function : PyVal) :
    Except PyError MSState :=
  ms_init deformation_function tiling microtile parametrization_function

/-- Embedding of `Microstructure.__init__` (microstructure.py lines 6-35):
dispatch on `isinstance(deformation_function, PySpline)` and construct the
matching delegate with the four configuration arguments. -/
def facade_init (deformation_function tiling microtile parametrization_function : PyVal) :
    Except PyError FacadeState :=
  if pyIsPySpline deformation_function then
    Except.map (fun d => FacadeState.mk true d)
      (single_patch_init deformation_function tiling microtile parametrization_function)
  else
    Except.map (fun d => FacadeState.mk false d)
      (ms_init deformation_function tiling microtile parametrization_function)

/-- Embedding of the `Microstructure.deformation_function` setter
(microstructure.py lines 52-67): re-run `__init__` with the new deformation
function and the current values of properties number 1, 2 and 3 (read back
through `_get_property`; property number 4 is not part of the re-init). -/
def facade_set_deformation_function (f : FacadeState) (deformation_function : PyVal) :
    Except PyError FacadeState :=
  facade_init deformation_function (facade_get_property f 1)
    (facade_get_property f 2) (facade_get_property f 3)

/-- A Bezier spline as constructed by Solid3D.create_tile: its degrees and
its control points (all coordinates here are exactly representable, so ℚ is
a faithful carrier). -/
structure Bezier where
  degrees : List Nat
  control_points : List (List ℚ)
deriving DecidableEq

/-- Declared class attribute `_para_dim` of Solid3D (solid_3d.py line 19). -/
def solid3d_para_dim : Nat := 3

/-- Declared class attribute `_dim` of Solid3D (solid_3d.py line 18). -/
def solid3d_dim : Nat := 3

/-- The `center_points` array of `Solid3D.create_tile` (lines 95-106), for a
given value of `v_one_half`. -/
def center_points_rows (v : ℚ) : List (List ℚ) :=
  [[-v, -v, -v], [v, -v, -v], [-v, v, -v], [v, v, -v],
   [-v, -v, v], [v, -v, v], [-v, v, v], [v, v, v]]

/-- One pass of the `for i_derivative in range(3)` loop body of
`Solid3D.create_tile` (lines 88-116): the constructed `spline_list`. -/
def tile_spline_list (i_derivative : Nat) : List Bezier :=
  let v_one_half : ℚ := if i_derivative = 0 then 1/2 else 0
  let center : List ℚ := List.replicate 3 v_one_half
  [Bezier.mk [1, 1, 1]
    ((center_points_rows v_one_half).map
      (fun row => List.zipWith (fun a b => a + b) row center))]

/-- The closure=None path of `Solid3D.create_tile` (lines 87-118): the loop
keeps pass 0 as `splines` and appends the later passes to `derivatives`. -/
def solid3d_create_tile_open : List Bezier × List (List Bezier) :=
  (List.range 3).foldl
    (fun acc i_derivative =>
      let spline_list := tile_spline_list i_derivative
      if i_derivative = 0 then (spline_list, acc.snd)
      else (acc.fst, acc.snd ++ [spline_list]))
    ([], [])

/-- The names bound at module scope of solid_3d.py: the three imports and the
class itself.  Python resolves a bare name in a method body against the local
scope, then the module scope, then builtins, and never the enclosing class
scope. -/
def solid3d_module_scope : List String := ["_np", "_Bezier", "_TileBase", "Solid3D"]

/-- Embedding of `Solid3D._closing_tile` (lines 23-49): its body is
`return create_tile(parameters, parameter_sensitivities, closure=None)`.
The bare name `create_tile` is not a local there and is looked up in the
module scope (and builtins, which do not define it); were it bound, the call
would be the closure=None tile construction. -/
def solid3d_closing_tile (parameters : Option (List (List ℚ)))
    (parameter_sensitivities : Option (List (List (List ℚ)))) :
    Except PyError (List Bezier × List (List Bezier)) :=
  if solid3d_module_scope.contains "create_tile"
  then Except.ok solid3d_create_tile_open
  else Except.error (PyError.nameError "create_tile")

/-- Embedding of `Solid3D.create_tile` (lines 51-118): a non-None closure
delegates to `_closing_tile` (with parameters=None,
parameter_sensitivities=None, closure=None, per lines 80-85); otherwise the
loop of lines 87-116 builds the unit-cube tile and its two derivative
passes.  The `parameters` and `parameter_sensitivities` arguments are never
read on the closure=None path. -/
def solid3d_create_tile (parameters : Option (List (List ℚ)))
    (parameter_sensitivities : Option (List (List (List ℚ))))
    (closure : Option String) :
    Except PyError (List Bezier × List (List Bezier)) :=
  match closure with
  | Option.some _ => solid3d_closing_tile Option.none Option.none
  | Option.none => Except.ok solid3d_create_tile_open

/-- A trivial stand-in for the external single-patch builds: every patch
yields an empty geometry collection and no fields. -/
def demo_spc : Nat → PyVal → PyVal → PyVal → SPResult := fun _ _ _ _ => SPResult.mk [] []

/-- A state whose three required attributes were set through the setters to
the Python value None (so the attributes exist and hold None). -/
def ms_state_explicit_none : MSState :=
  ⟨Option.some PyVal.none, Option.some PyVal.none, Option.some PyVal.none,
   Option.none, Option.none, Option.none, Option.none⟩

/-- A fully configured two-patch builder state: deformation functions,
tilings and microtiles set to usable values, the two optional function
attributes explicitly set to None. -/
def st_full : MSState :=
  ⟨Option.some (PyVal.multipatch [PyVal.spline 0, PyVal.spline 1]),
   Option.some (PyVal.int 2), Option.some (PyVal.obj 0),
   Option.some PyVal.none, Option.some PyVal.none, Option.none, Option.none⟩

/-- A two-patch builder state whose parametrization_functions attribute holds
a list of length equal to the number of patches (2). -/
def stC4 : MSState :=
  ⟨Option.some (PyVal.multipatch [PyVal.spline 0, PyVal.spline 1]),
   Option.some (PyVal.int 2), Option.some (PyVal.obj 0),
   Option.some (PyVal.list [PyVal.pyfun 0, PyVal.pyfun 1]), Option.some PyVal.none,
   Option.none, Option.none⟩

/-- A facade over a multi-patch delegate with all five properties set,
including a parameter sensitivity function. -/
def facade_demo : FacadeState :=
  ⟨false,
   ⟨Option.some (PyVal.multipatch [PyVal.spline 0]), Option.some (PyVal.int 2),
    Option.some (PyVal.obj 1), Option.some (PyVal.pyfun 2), Option.some (PyVal.pyfun 5),
    Option.none, Option.none⟩⟩

/-- Two single-patch results for exercising the combination step: patch 0
contributes two geometry patches and one sensitivity field, patch 1
contributes one geometry patch and no field. -/
def mps_demo : List SPResult :=
  [SPResult.mk [PyVal.obj 0, PyVal.obj 1] [[PyVal.int 10, PyVal.int 11]],
   SPResult.mk [PyVal.obj 2] []]

/-- C9: for every parameters and parameter_sensitivities argument,
Solid3D.create_tile with closure=None returns one degree-[1,1,1] Bezier whose
8 control points are exactly the corners of the unit cube, together with 2
derivative entries (fewer than the declared _para_dim of 3), each a
one-element list of an all-zero Bezier. -/
theorem claim_C9_solid3d_open_tile (parameters : Option (List (List ℚ)))
    (parameter_sensitivities : Option (List (List (List ℚ)))) :
    solid3d_create_tile parameters parameter_sensitivities Option.none =
      Except.ok
        ([Bezier.mk [1, 1, 1]
            [[0, 0, 0], [1, 0, 0], [0, 1, 0], [1, 1, 0],
             [0, 0, 1], [1, 0, 1], [0, 1, 1], [1, 1, 1]]],
         [[Bezier.mk [1, 1, 1] (List.replicate 8 [0, 0, 0])],
          [Bezier.mk [1, 1, 1] (List.replicate 8 [0, 0, 0])]]) ∧
    2 < solid3d_para_dim := by
  refine ⟨?_, by decide⟩
  show Except.ok solid3d_create_tile_open = _
  refine congrArg Except.ok ?_
  unfold solid3d_create_tile_open
  simp only [List.range_succ, List.range_zero, List.nil_append, List.cons_append,
    List.foldl_cons, List.foldl_nil]
  norm_num [tile_spline_list, center_points_rows, List.replicate, List.zipWith]

/-- C10: for every non-None closure argument, Solid3D.create_tile ends in a
NameError: the closure branch calls _closing_tile, whose body evaluates the
unbound module-scope name create_tile. -/
theorem claim_C10_closing_raises_name_error (parameters : Option (List (List ℚ)))
    (parameter_sensitivities : Option (List (List (List ℚ)))) (closure : String) :
    solid3d_create_tile parameters parameter_sensitivities (Option.some closure) =
      Except.error (PyError.nameError "create_tile") := rfl

/-- C5 (code bug): on a freshly constructed instance (all constructor
arguments None, so no attribute was ever set) create() raises
AttributeError on the direct read of self._deformation_functions instead of
logging and returning None; the graceful informational path is only reached
when the attributes exist and hold None. -/
theorem claim_C5_create_attribute_error :
    ms_init PyVal.none PyVal.none PyVal.none PyVal.none = Except.ok MSState.empty ∧
    (∀ cf ksw msens spc, ms_create MSState.empty cf ksw msens spc =
        Except.error (PyError.attributeError "_deformation_functions")) ∧
    (∀ cf ksw msens spc, ms_create ms_state_explicit_none cf ksw msens spc =
        Except.ok ⟨ms_state_explicit_none, [LogMsg.info insufficient_message],
          Option.none⟩) :=
  ⟨rfl, fun _ _ _ _ => rfl, fun _ _ _ _ => rfl⟩

/-- C6 (code bug): the setters for deformation_functions and tilings do raise
ValueError on a type mismatch, but the setters for parametrization_functions
and parameter_sensitivity_functions accept any value whatsoever — the check
`callable(property)` tests the Python builtin `property`, which is always
callable — so an int is stored silently instead of raising. -/
theorem claim_C6_setter_type_checks :
    (∃ msg, deformation_functions_set MSState.empty (PyVal.int 7) =
        Except.error (PyError.valueError msg)) ∧
    (∃ msg, tilings_set MSState.empty (PyVal.str "x") =
        Except.error (PyError.valueError msg)) ∧
    parametrization_functions_set MSState.empty (PyVal.int 42) =
      Except.ok { MSState.empty with
        parametrization_functions_attr := Option.some (PyVal.int 42) } ∧
    parameter_sensitivity_functions_set MSState.empty (PyVal.int 42) =
      Except.ok { MSState.empty with
        parameter_sensitivity_functions_attr := Option.some (PyVal.int 42) } :=
  ⟨⟨_, rfl⟩, ⟨_, rfl⟩, rfl, rfl⟩

/-- C8 (code bug): a successful create() leaves _microstructure_created
unset (create never assigns it), so show(use_saved=True) raises ValueError
even immediately after a successful create. -/
theorem claim_C8_no_caching :
    Except.map (fun out =>
        (out.result.isSome, out.state.microstructure_created_attr,
         show_use_saved out.state))
      (ms_create st_full PyVal.none PyVal.none PyVal.none demo_spc) =
    Except.ok (true, Option.none,
      Except.error (PyError.valueError "No previously created microstructure saved!")) :=
  rfl

/-- C4 (counterexample): with two outer patches and parametrization_functions
supplied as a list of length exactly 2, create() emits no diagnostic at all —
refuting the claim that every broadcast property of length N triggers the
ambiguity diagnostic. -/
theorem claim_C4_counterexample :
    pyIsList (PyVal.list [PyVal.pyfun 0, PyVal.pyfun 1]) = true ∧
    pyListLen (PyVal.list [PyVal.pyfun 0, PyVal.pyfun 1]) = 2 ∧
    stC4.parametrization_functions_attr =
      Option.some (PyVal.list [PyVal.pyfun 0, PyVal.pyfun 1]) ∧
    Except.map CreateOut.logs
      (ms_create stC4 PyVal.none PyVal.none PyVal.none demo_spc) = Except.ok [] :=
  ⟨rfl, rfl, rfl, rfl⟩

/-- C7 (counterexample): a facade whose delegate has a parameter sensitivity
function set loses it when a new deformation function is assigned — the
rebuilt delegate has no parameter_sensitivity_functions attribute. -/
theorem claim_C7_counterexample :
    facade_demo.delegate.parameter_sensitivity_functions_attr =
      Option.some (PyVal.pyfun 5) ∧
    ∃ f1 : FacadeState,
      facade_set_deformation_function facade_demo (PyVal.multipatch [PyVal.spline 7]) =
        Except.ok f1 ∧
      f1.delegate.parameter_sensitivity_functions_attr = Option.none :=
  ⟨rfl, ⟨_, rfl, rfl⟩⟩
/-- Generic segment-indexing lemma: inside the flatten of a list of blocks,
the position (sum of the lengths of the first k blocks) + t reads entry t of
block k. -/
theorem flatten_getElem_segment {α : Type} (Ls : List (List α)) (k t : Nat) (B : List α)
    (hk : Ls[k]? = Option.some B) (ht : t < B.length) :
    Ls.flatten[(((Ls.take k).map List.length).sum + t)]? = B[t]? := by
  induction Ls generalizing k with
  | nil => simp at hk
  | cons hd tl ih =>
    cases k with
    | zero =>
      simp only [List.getElem?_cons_zero, Option.some.injEq] at hk
      subst hk
      simp only [List.take_zero, List.map_nil, List.sum_nil, Nat.zero_add,
        List.flatten_cons]
      exact List.getElem?_append_left ht
    | succ k =>
      simp only [List.getElem?_cons_succ] at hk
      simp only [List.take_succ_cons, List.map_cons, List.sum_cons, List.flatten_cons]
      rw [Nat.add_assoc, List.getElem?_append_right (Nat.le_add_right _ _),
        Nat.add_sub_cancel_left]
      exact ih k hk

theorem enum_getElem? {α : Type} (l : List α) (n : Nat) :
    l.enum[n]? = l[n]?.map (fun a => (n, a)) := by
  have h := List.getElem?_enum l n
  exact h

theorem combine_patches_length (mps : List SPResult) :
    (combine_patches mps).length = (mps.map (fun mp => mp.patches.length)).sum := by
  simp only [combine_patches, List.length_flatten, List.map_map]
  rfl

theorem combine_patches_getElem (mps : List SPResult) (i : Nat) (hi : i < mps.length)
    (t : Nat) (ht : t < mps[i].patches.length) :
    (combine_patches mps)[patch_offset mps i + t]? = mps[i].patches[t]? := by
  have hk : (mps.map SPResult.patches)[i]? = Option.some mps[i].patches := by
    simp [List.getElem?_map, List.getElem?_eq_getElem hi]
  have h := flatten_getElem_segment (mps.map SPResult.patches) i t mps[i].patches hk ht
  have hsum : (((mps.map SPResult.patches).take i).map List.length).sum = patch_offset mps i := by
    simp only [patch_offset, ← List.map_take, List.map_map]
    rfl
  rw [hsum] at h
  exact h

theorem field_blocks_getElem? (mps : List SPResult) (i : Nat) (f : List PyVal) (j : Nat) :
    (field_blocks mps i f)[j]? =
      mps[j]?.map (fun mp =>
        if j = i then f else List.replicate mp.patches.length PyVal.none) := by
  rw [field_blocks, List.getElem?_map, List.getElem?_enum, Option.map_map]
  rfl

theorem field_blocks_map_length (mps : List SPResult) (i : Nat) (f : List PyVal)
    (hi : i < mps.length) (hf : f.length = mps[i].patches.length) :
    (field_blocks mps i f).map List.length = mps.map (fun mp => mp.patches.length) := by
  apply List.ext_getElem?
  intro j
  rw [List.getElem?_map, field_blocks_getElem?, List.getElem?_map, Option.map_map]
  cases hj : mps[j]? with
  | none => rfl
  | some mp =>
    simp only [Option.map_some']
    by_cases hji : j = i
    · subst hji
      rw [List.getElem?_eq_getElem hi, Option.some.injEq] at hj
      subst hj
      simp [hf]
    · simp [hji]

theorem field_blocks_take_sum (mps : List SPResult) (i : Nat) (f : List PyVal)
    (hi : i < mps.length) (hf : f.length = mps[i].patches.length) (k : Nat) :
    (((field_blocks mps i f).take k).map List.length).sum = patch_offset mps k := by
  rw [List.map_take, field_blocks_map_length mps i f hi hf, ← List.map_take]
  rfl

theorem field_row_length (mps : List SPResult) (i : Nat) (f : List PyVal)
    (hi : i < mps.length) (hf : f.length = mps[i].patches.length) :
    (field_row mps i f).length = (combine_patches mps).length := by
  rw [field_row, List.length_flatten, field_blocks_map_length mps i f hi hf,
    combine_patches_length]

theorem field_row_getElem_own (mps : List SPResult) (i : Nat) (f : List PyVal)
    (hi : i < mps.length) (hf : f.length = mps[i].patches.length)
    (t : Nat) (ht : t < f.length) :
    (field_row mps i f)[patch_offset mps i + t]? = f[t]? := by
  have hk : (field_blocks mps i f)[i]? = Option.some f := by
    rw [field_blocks_getElem?, List.getElem?_eq_getElem hi]
    simp
  have h := flatten_getElem_segment (field_blocks mps i f) i t f hk ht
  rw [field_blocks_take_sum mps i f hi hf] at h
  exact h

theorem field_row_getElem_other (mps : List SPResult) (i : Nat) (f : List PyVal)
    (hi : i < mps.length) (hf : f.length = mps[i].patches.length)
    (j : Nat) (hj : j < mps.length) (hij : j ≠ i)
    (t : Nat) (ht : t < mps[j].patches.length) :
    (field_row mps i f)[patch_offset mps j + t]? = Option.some PyVal.none := by
  have hk : (field_blocks mps i f)[j]? =
      Option.some (List.replicate mps[j].patches.length PyVal.none) := by
    rw [field_blocks_getElem?, List.getElem?_eq_getElem hj]
    simp [hij]
  have h := flatten_getElem_segment (field_blocks mps i f) j t _ hk (by simpa using ht)
  rw [field_blocks_take_sum mps i f hi hf] at h
  rw [field_row, h]
  simp [List.getElem?_replicate, ht]

theorem combine_fields_mem (mps : List SPResult) (row : List PyVal)
    (hrow : row ∈ combine_fields mps) :
    ∃ i, ∃ hi : i < mps.length, ∃ f, f ∈ mps[i].fields ∧ row = field_row mps i f := by
  rw [combine_fields, List.mem_flatten] at hrow
  obtain ⟨l, hl, hrl⟩ := hrow
  rw [List.mem_map] at hl
  obtain ⟨q, hq, rfl⟩ := hl
  rw [List.mem_enum_iff_getElem?] at hq
  rw [List.mem_map] at hrl
  obtain ⟨f, hf, rfl⟩ := hrl
  obtain ⟨hlt, heq⟩ := List.getElem?_eq_some.mp hq
  exact ⟨q.fst, hlt, f, by rw [heq]; exact hf, rfl⟩

theorem mem_combine_fields (mps : List SPResult) (i : Nat) (hi : i < mps.length)
    (f : List PyVal) (hf : f ∈ mps[i].fields) :
    field_row mps i f ∈ combine_fields mps := by
  rw [combine_fields, List.mem_flatten]
  refine ⟨mps[i].fields.map (field_row mps i), ?_, List.mem_map_of_mem _ hf⟩
  rw [List.mem_map]
  refine ⟨(i, mps[i]), ?_, rfl⟩
  rw [List.mem_enum_iff_getElem?]
  exact List.getElem?_eq_getElem hi

/-- C2: the combined geometry collection is the concatenation of the
per-patch geometry collections in ascending patch order: its length is the
sum of the per-patch lengths and the entries of patch i occupy exactly the
index range starting at patch_offset i, in order. -/
theorem claim_C2_concatenated_geometry (mps : List SPResult) :
    (combine_patches mps).length = (mps.map (fun mp => mp.patches.length)).sum ∧
    ∀ i : Nat, ∀ hi : i < mps.length, ∀ t : Nat, t < mps[i].patches.length →
      (combine_patches mps)[patch_offset mps i + t]? = mps[i].patches[t]? :=
  ⟨combine_patches_length mps, fun i hi t ht => combine_patches_getElem mps i hi t ht⟩

/-- C1: when at least one patch produced sensitivity fields (and each
per-patch field is index-aligned with its own patch collection, as the
single-patch builder guarantees), every combined sensitivity field has the
length of the combined geometry collection, carries the contributing patch
entries exactly on that patch index range, and holds the None placeholder on
every index of every other patch range. -/
theorem claim_C1_fields_alignment (mps : List SPResult)
    (hex : ∃ mp ∈ mps, mp.fields ≠ [])
    (hlen : ∀ mp ∈ mps, ∀ f ∈ mp.fields, f.length = mp.patches.length) :
    combine_fields mps ≠ [] ∧
    ∀ row ∈ combine_fields mps,
      row.length = (combine_patches mps).length ∧
      ∃ i, ∃ hi : i < mps.length, ∃ f,
        f ∈ mps[i].fields ∧ row = field_row mps i f ∧
        (∀ t : Nat, t < f.length → row[patch_offset mps i + t]? = f[t]?) ∧
        (∀ j : Nat, ∀ hj : j < mps.length, j ≠ i → ∀ t : Nat,
          t < mps[j].patches.length →
          row[patch_offset mps j + t]? = Option.some PyVal.none) := by
  constructor
  · obtain ⟨mp, hmp, hne⟩ := hex
    obtain ⟨i, hi, heq⟩ := List.mem_iff_getElem.mp hmp
    obtain ⟨f, hfm⟩ := List.exists_mem_of_ne_nil _ hne
    intro hempty
    have hmem := mem_combine_fields mps i hi f (by rw [heq]; exact hfm)
    rw [hempty] at hmem
    exact List.not_mem_nil _ hmem
  · intro row hrow
    obtain ⟨i, hi, f, hfm, hroweq⟩ := combine_fields_mem mps row hrow
    have hflen : f.length = mps[i].patches.length :=
      hlen mps[i] (List.getElem_mem hi) f hfm
    subst hroweq
    exact ⟨field_row_length mps i f hi hflen,
      i, hi, f, hfm, rfl,
      fun t ht => field_row_getElem_own mps i f hi hflen t ht,
      fun j hj hij t ht => field_row_getElem_other mps i f hi hflen j hj hij t ht⟩

/-- Witness for C1 at a concrete two-patch input where only patch 0
contributes a field. -/
theorem claim_C1_witness :
    (∃ mp ∈ mps_demo, mp.fields ≠ []) ∧
    (∀ mp ∈ mps_demo, ∀ f ∈ mp.fields, f.length = mp.patches.length) ∧
    combine_fields mps_demo ≠ [] ∧
    (∀ row ∈ combine_fields mps_demo,
      row.length = (combine_patches mps_demo).length) ∧
    combine_fields mps_demo =
      [[PyVal.int 10, PyVal.int 11, PyVal.none]] := by
  have h1 : ∃ mp ∈ mps_demo, mp.fields ≠ [] :=
    ⟨SPResult.mk [PyVal.obj 0, PyVal.obj 1] [[PyVal.int 10, PyVal.int 11]],
     List.mem_cons_self _ _, by simp⟩
  have h2 : ∀ mp ∈ mps_demo, ∀ f ∈ mp.fields, f.length = mp.patches.length := by
    intro mp hmp f hfm
    simp only [mps_demo, List.mem_cons, List.not_mem_nil, or_false] at hmp
    rcases hmp with hmp | hmp
    · subst hmp
      simp only [List.mem_cons, List.not_mem_nil, or_false] at hfm
      subst hfm
      rfl
    · subst hmp
      simp at hfm
  have h := claim_C1_fields_alignment mps_demo h1 h2
  exact ⟨h1, h2, h.1, fun row hr => (h.2 row hr).1, rfl⟩

/-- Witness for C2 at the same concrete two-patch input. -/
theorem claim_C2_witness :
    (combine_patches mps_demo).length = 3 ∧
    (combine_patches mps_demo)[2]? = Option.some (PyVal.obj 2) := by
  have h := claim_C2_concatenated_geometry mps_demo
  refine ⟨?_, ?_⟩
  · rw [h.1]
    rfl
  · have h2 := h.2 1 (by decide) 0 (by decide)
    rw [show patch_offset mps_demo 1 + 0 = 2 from rfl] at h2
    rw [h2]
    rfl

/-- C3: for every patch count N ≥ 1 and every value, the broadcast step
returns a list of length exactly N; a list of length N is returned
unchanged, any other value (including None and lists of other lengths) is
replicated N times, and in particular None broadcasts to N Nones. -/
theorem claim_C3_broadcaster_length (N : Nat) (hN : 1 ≤ N) (value : PyVal) :
    (∃ xs : List PyVal, CheckForListAndCreateOtherwise N value = PyVal.list xs ∧
        xs.length = N) ∧
    (∀ xs : List PyVal, value = PyVal.list xs → xs.length = N →
        CheckForListAndCreateOtherwise N value = value) ∧
    ((∀ xs : List PyVal, value = PyVal.list xs → xs.length ≠ N) →
        CheckForListAndCreateOtherwise N value = PyVal.list (List.replicate N value)) ∧
    CheckForListAndCreateOtherwise N PyVal.none =
      PyVal.list (List.replicate N PyVal.none) := by
  refine ⟨?_, ?_, ?_, by simp [CheckForListAndCreateOtherwise, pyIsList]⟩
  · by_cases h : (pyIsList value && (pyListLen value == N)) = true
    · obtain ⟨xs, rfl⟩ : ∃ xs, value = PyVal.list xs := by
        rw [Bool.and_eq_true] at h
        cases value with
        | list xs => exact ⟨xs, rfl⟩
        | none => exact absurd h.1 (by simp [pyIsList])
        | bool b => exact absurd h.1 (by simp [pyIsList])
        | int n => exact absurd h.1 (by simp [pyIsList])
        | str sv => exact absurd h.1 (by simp [pyIsList])
        | multipatch ps => exact absurd h.1 (by simp [pyIsList])
        | spline i => exact absurd h.1 (by simp [pyIsList])
        | pyfun i => exact absurd h.1 (by simp [pyIsList])
        | obj i => exact absurd h.1 (by simp [pyIsList])
      refine ⟨xs, ?_, ?_⟩
      · simp [CheckForListAndCreateOtherwise, h]
      · rw [Bool.and_eq_true, beq_iff_eq] at h
        simpa [pyListLen] using h.2
    · refine ⟨List.replicate N value, ?_, List.length_replicate _ _⟩
      simp only [CheckForListAndCreateOtherwise, h]
      simp
  · intro xs hval hlen
    subst hval
    simp [CheckForListAndCreateOtherwise, pyIsList, pyListLen, hlen]
  · intro hnot
    by_cases h : (pyIsList value && (pyListLen value == N)) = true
    · exfalso
      rw [Bool.and_eq_true, beq_iff_eq] at h
      obtain ⟨h1, h2⟩ := h
      cases value with
      | list xs => exact hnot xs rfl (by simpa [pyListLen] using h2)
      | none => exact absurd h1 (by simp [pyIsList])
      | bool b => exact absurd h1 (by simp [pyIsList])
      | int n => exact absurd h1 (by simp [pyIsList])
      | str sv => exact absurd h1 (by simp [pyIsList])
      | multipatch ps => exact absurd h1 (by simp [pyIsList])
      | spline i => exact absurd h1 (by simp [pyIsList])
      | pyfun i => exact absurd h1 (by simp [pyIsList])
      | obj i => exact absurd h1 (by simp [pyIsList])
    · simp only [CheckForListAndCreateOtherwise, h]
      simp

/-- Witness for C3 at N = 2 and value = None. -/
theorem claim_C3_witness :
    1 ≤ 2 ∧
    ((∃ xs : List PyVal, CheckForListAndCreateOtherwise 2 PyVal.none = PyVal.list xs ∧
        xs.length = 2) ∧
     (∀ xs : List PyVal, PyVal.none = PyVal.list xs → xs.length = 2 →
        CheckForListAndCreateOtherwise 2 PyVal.none = PyVal.none) ∧
     ((∀ xs : List PyVal, PyVal.none = PyVal.list xs → xs.length ≠ 2) →
        CheckForListAndCreateOtherwise 2 PyVal.none =
          PyVal.list (List.replicate 2 PyVal.none)) ∧
     CheckForListAndCreateOtherwise 2 PyVal.none =
       PyVal.list (List.replicate 2 PyVal.none)) :=
  ⟨by decide, claim_C3_broadcaster_length 2 (by decide) PyVal.none⟩

/-- On a state with all five attributes present, a multi-patch deformation
value and non-None tilings and microtiles, create() takes the success path
and returns the ms_create_main outcome. -/
theorem ms_create_ok_of_attrs (dps : List PyVal) (t m pf psf : PyVal)
    (micro_a : Option (List (PyVal × PyVal × PyVal × PyVal))) (created_a : Option PyVal)
    (cf ksw msens : PyVal) (spc : Nat → PyVal → PyVal → PyVal → SPResult)
    (ht : pyIsNone t = false) (hm : pyIsNone m = false) :
    ms_create (MSState.mk (Option.some (PyVal.multipatch dps)) (Option.some t)
        (Option.some m) (Option.some pf) (Option.some psf) micro_a created_a)
      cf ksw msens spc =
    Except.ok (ms_create_main
      (MSState.mk (Option.some (PyVal.multipatch dps)) (Option.some t)
        (Option.some m) (Option.some pf) (Option.some psf) micro_a created_a)
      dps t m pf psf cf ksw msens spc) := by
  unfold ms_create
  have hd : pyIsNone (PyVal.multipatch dps) = false := rfl
  simp only [hd, ht, hm, Bool.or_self, Bool.false_or, Bool.false_eq_true, if_false]
  rfl

/-- C4 (amended): during a multi-patch create(), the ambiguity diagnostic is
emitted only for tilings, microtiles and parameter sensitivity functions —
the emitted log is exactly the concatenation of those three CheckForAmbiguity
outputs, each nonempty precisely when its value is a list of length N — while
parametrization functions, closing faces, knot-span-wise flags and
macro-sensitivity flags are broadcast with no diagnostic; broadcast values
are still interpreted one entry per patch and the call is never blocked. -/
theorem claim_C4_amended_diagnostics (dps : List PyVal) (t m pf psf cf ksw msens : PyVal)
    (spc : Nat → PyVal → PyVal → PyVal → SPResult)
    (ht : pyIsNone t = false) (hm : pyIsNone m = false) :
    ∃ out : CreateOut,
      ms_create (MSState.mk (Option.some (PyVal.multipatch dps)) (Option.some t)
          (Option.some m) (Option.some pf) (Option.some psf) Option.none Option.none)
        cf ksw msens spc = Except.ok out ∧
      out.logs = (CheckForAmbiguity dps.length t "tiling").fst ++
        (CheckForAmbiguity dps.length m "microtile").fst ++
        (CheckForAmbiguity dps.length psf "parameter_sensitivity_function").fst ∧
      out.state.microstructures_attr = Option.some (zip4 dps
        (pyListItems (CheckForListAndCreateOtherwise dps.length t))
        (pyListItems (CheckForListAndCreateOtherwise dps.length m))
        (pyListItems (CheckForListAndCreateOtherwise dps.length pf))) ∧
      (∀ v : PyVal, ∀ nm : String, (CheckForAmbiguity dps.length v nm).fst =
        (if pyIsList v && (pyListLen v == dps.length) then
          [LogMsg.debug (ambiguity_message nm)] else [])) :=
  ⟨_, ms_create_ok_of_attrs dps t m pf psf Option.none Option.none cf ksw msens spc ht hm,
   rfl, rfl, fun _ _ => rfl⟩

/-- Witness for the amended C4: two patches, tilings given as a list of
length 2 (its diagnostic fires), parametrization functions also a list of
length 2 (no diagnostic fires for it). -/
theorem claim_C4_amended_witness :
    pyIsNone (PyVal.list [PyVal.int 2, PyVal.int 3]) = false ∧
    pyIsNone (PyVal.obj 0) = false ∧
    ∃ out : CreateOut,
      ms_create (MSState.mk (Option.some (PyVal.multipatch [PyVal.spline 0, PyVal.spline 1]))
          (Option.some (PyVal.list [PyVal.int 2, PyVal.int 3])) (Option.some (PyVal.obj 0))
          (Option.some (PyVal.list [PyVal.pyfun 0, PyVal.pyfun 1])) (Option.some PyVal.none)
          Option.none Option.none)
        PyVal.none PyVal.none PyVal.none demo_spc = Except.ok out ∧
      out.logs = [LogMsg.debug (ambiguity_message "tiling")] := by
  refine ⟨rfl, rfl, ?_⟩
  obtain ⟨out, hok, hlogs, -, -⟩ := claim_C4_amended_diagnostics
    [PyVal.spline 0, PyVal.spline 1] (PyVal.list [PyVal.int 2, PyVal.int 3]) (PyVal.obj 0)
    (PyVal.list [PyVal.pyfun 0, PyVal.pyfun 1]) PyVal.none PyVal.none PyVal.none PyVal.none
    demo_spc rfl rfl
  refine ⟨out, hok, ?_⟩
  rw [hlogs]
  rfl

/-- A value whose is-None test succeeds is the Python None. -/
theorem pyIsNone_eq_none (v : PyVal) (h : pyIsNone v = true) : v = PyVal.none := by
  cases v <;> simp [pyIsNone] at h ⊢

/-- Inversion of a successful Except.bind. -/
theorem except_bind_ok {ε α β : Type} (x : Except ε α) (k : α → Except ε β) (b : β)
    (h : Except.bind x k = Except.ok b) : ∃ a, x = Except.ok a ∧ k a = Except.ok b := by
  cases x with
  | error e => exact Except.noConfusion h
  | ok a => exact ⟨a, rfl, h⟩

/-- A successful `_set_property` call performs exactly the setattr step. -/
theorem set_property_ms_ok (st : MSState) (v : PyVal) (c : ClassSpec) (n : Nat)
    (st2 : MSState) (h : set_property_ms st v c n = Except.ok st2) :
    st2 = set_attr st n v := by
  unfold set_property_ms at h
  split at h
  · exact absurd h (by simp)
  · exact (Except.ok.inj h).symm

/-- Characterization of a successful `__init__`: the attributes present are
exactly the non-None arguments, and the sensitivity-function and cached
attributes are absent. -/
theorem ms_init_characterize (df t m pf : PyVal) (st : MSState)
    (h : ms_init df t m pf = Except.ok st) :
    st.parameter_sensitivity_functions_attr = Option.none ∧
    st.microstructure_created_attr = Option.none ∧
    st.tilings_attr = (if pyIsNone t then Option.none else Option.some t) ∧
    st.microtiles_attr = (if pyIsNone m then Option.none else Option.some m) ∧
    st.parametrization_functions_attr =
      (if pyIsNone pf then Option.none else Option.some pf) ∧
    (pyIsNone df = false → st.deformation_functions_attr = Option.some df) := by
  unfold ms_init at h
  obtain ⟨st1, h1, h⟩ := except_bind_ok _ _ _ h
  obtain ⟨st2, h2, h⟩ := except_bind_ok _ _ _ h
  obtain ⟨st3, h3, h⟩ := except_bind_ok _ _ _ h
  obtain ⟨st4, h4, h⟩ := except_bind_ok _ _ _ h
  cases h
  have hst1 : st1.tilings_attr = Option.none ∧ st1.microtiles_attr = Option.none ∧
      st1.parametrization_functions_attr = Option.none ∧
      st1.parameter_sensitivity_functions_attr = Option.none ∧
      st1.microstructure_created_attr = Option.none ∧
      (pyIsNone df = false → st1.deformation_functions_attr = Option.some df) := by
    by_cases hdf : pyIsNone df = true
    · rw [if_pos hdf] at h1
      cases h1
      exact ⟨rfl, rfl, rfl, rfl, rfl, fun hc => absurd hdf (by rw [hc]; simp)⟩
    · rw [if_neg hdf] at h1
      have he := set_property_ms_ok MSState.empty df ClassSpec.multipatchClass 0 st1 h1
      subst he
      exact ⟨rfl, rfl, rfl, rfl, rfl, fun _ => rfl⟩
  have hst2 : st2.tilings_attr = (if pyIsNone t then Option.none else Option.some t) ∧
      st2.microtiles_attr = Option.none ∧
      st2.parametrization_functions_attr = Option.none ∧
      st2.parameter_sensitivity_functions_attr = Option.none ∧
      st2.microstructure_created_attr = Option.none ∧
      (pyIsNone df = false → st2.deformation_functions_attr = Option.some df) := by
    by_cases hti : pyIsNone t = true
    · rw [if_pos hti] at h2
      cases h2
      rw [if_pos hti]
      exact ⟨hst1.1, hst1.2.1, hst1.2.2.1, hst1.2.2.2.1, hst1.2.2.2.2.1, hst1.2.2.2.2.2⟩
    · rw [if_neg hti] at h2
      have he := set_property_ms_ok st1 t ClassSpec.intOrListClass 1 st2 h2
      subst he
      rw [if_neg hti]
      exact ⟨rfl, hst1.2.1, hst1.2.2.1, hst1.2.2.2.1, hst1.2.2.2.2.1, hst1.2.2.2.2.2⟩
  have hst3 : st3.tilings_attr = (if pyIsNone t then Option.none else Option.some t) ∧
      st3.microtiles_attr = (if pyIsNone m then Option.none else Option.some m) ∧
      st3.parametrization_functions_attr = Option.none ∧
      st3.parameter_sensitivity_functions_attr = Option.none ∧
      st3.microstructure_created_attr = Option.none ∧
      (pyIsNone df = false → st3.deformation_functions_attr = Option.some df) := by
    by_cases hmi : pyIsNone m = true
    · rw [if_pos hmi] at h3
      cases h3
      rw [if_pos hmi]
      exact ⟨hst2.1, hst2.2.1, hst2.2.2.1, hst2.2.2.2.1, hst2.2.2.2.2.1, hst2.2.2.2.2.2⟩
    · rw [if_neg hmi] at h3
      have he := set_property_ms_ok st2 m ClassSpec.noneArg 2 st3 h3
      subst he
      rw [if_neg hmi]
      exact ⟨hst2.1, rfl, hst2.2.2.1, hst2.2.2.2.1, hst2.2.2.2.2.1, hst2.2.2.2.2.2⟩
  by_cases hpf : pyIsNone pf = true
  · rw [if_pos hpf] at h4
    cases h4
    rw [if_pos hpf]
    exact ⟨hst3.2.2.2.1, hst3.2.2.2.2.1, hst3.1, hst3.2.1, hst3.2.2.1, hst3.2.2.2.2.2⟩
  · rw [if_neg hpf] at h4
    have he := set_property_ms_ok st3 pf ClassSpec.listClass 3 st h4
    subst he
    rw [if_neg hpf]
    exact ⟨hst3.2.2.2.1, hst3.2.2.2.2.1, hst3.1, hst3.2.1, rfl, hst3.2.2.2.2.2⟩

/-- C7 (amended): assigning a multi-patch deformation function on an
existing facade rebuilds the delegate as a multi-patch builder, carrying
over the tiling, microtile and parametrization-function properties (their
facade-visible values are unchanged), while the parameter sensitivity
function is NOT carried over — the rebuilt delegate has no
parameter_sensitivity_functions attribute. -/
theorem claim_C7_amended_rebuild (f : FacadeState) (ps : List PyVal) (f1 : FacadeState)
    (h : facade_set_deformation_function f (PyVal.multipatch ps) = Except.ok f1) :
    f1.is_single_patch = false ∧
    facade_get_property f1 1 = facade_get_property f 1 ∧
    facade_get_property f1 2 = facade_get_property f 2 ∧
    facade_get_property f1 3 = facade_get_property f 3 ∧
    f1.delegate.parameter_sensitivity_functions_attr = Option.none ∧
    f1.delegate.deformation_functions_attr = Option.some (PyVal.multipatch ps) := by
  unfold facade_set_deformation_function facade_init at h
  rw [show pyIsPySpline (PyVal.multipatch ps) = false from rfl] at h
  simp only [Bool.false_eq_true, if_false] at h
  cases he : ms_init (PyVal.multipatch ps) (facade_get_property f 1)
      (facade_get_property f 2) (facade_get_property f 3) with
  | error e =>
    rw [he] at h
    exact Except.noConfusion h
  | ok d =>
    rw [he] at h
    simp only [Except.map] at h
    cases h
    obtain ⟨hpsf, hcr, htl, hmt, hpf, hdf⟩ :=
      ms_init_characterize _ _ _ _ _ he
    have getter_of : ∀ n : Nat, ∀ v : PyVal,
        msstate_attr d n = (if pyIsNone v then Option.none else Option.some v) →
        facade_get_property (FacadeState.mk false d) n = v := by
      intro n v hv
      unfold facade_get_property
      show (match msstate_attr d n with
            | Option.some v => v
            | Option.none => PyVal.none) = v
      rw [hv]
      by_cases hnv : pyIsNone v = true
      · rw [if_pos hnv]
        exact (pyIsNone_eq_none v hnv).symm
      · rw [if_neg hnv]
    exact ⟨rfl, getter_of 1 _ htl, getter_of 2 _ hmt, getter_of 3 _ hpf, hpsf,
      hdf rfl⟩

/-- Witness for the amended C7 at the concrete facade facade_demo. -/
theorem claim_C7_amended_witness :
    ∃ f1 : FacadeState,
      facade_set_deformation_function facade_demo (PyVal.multipatch [PyVal.spline 7]) =
        Except.ok f1 ∧
      facade_get_property f1 1 = facade_get_property facade_demo 1 ∧
      facade_get_property f1 3 = facade_get_property facade_demo 3 ∧
      f1.delegate.parameter_sensitivity_functions_attr = Option.none := by
  have hok : facade_set_deformation_function facade_demo (PyVal.multipatch [PyVal.spline 7]) =
      Except.ok (FacadeState.mk false
        (MSState.mk (Option.some (PyVal.multipatch [PyVal.spline 7]))
          (Option.some (PyVal.int 2)) (Option.some (PyVal.obj 1))
          (Option.some (PyVal.pyfun 2)) Option.none Option.none Option.none)) := rfl
  have h := claim_C7_amended_rebuild facade_demo [PyVal.spline 7] _ hok
  exact ⟨_, hok, h.2.1, h.2.2.2.1, h.2.2.2.2.1⟩
